import Mathlib

/-!
Shallow embedding of `src/static/js/main.js` of HeerHirpara/Healcard_Gp.

The module is browser-side UI glue: each function is modelled as a pure
Lean function from its inputs (the page state it reads, the answer the
user would give to a blocking confirmation dialog, and the outcome of
the single network request it may issue) to the ordered list of
observable effects it performs.  A thrown JavaScript exception is
modelled with `Except`.
-/

namespace Healcard

/-- An outgoing HTTP request as built by a `fetch(...)` call:
URL, method, `Content-Type` header, and optional body string. -/
structure Request where
  url : String
  method : String
  contentType : String
  body : Option String
deriving DecidableEq, Repr

/-- One observable effect performed by the module, in program order. -/
inductive Effect where
  | alert (msg : String)
  | confirmPrompt (msg : String)
  | fetchReq (req : Request)
  | reload
  | consoleError (msg : String)
  | consoleLog (msg : String)
  | navigate (url : String)
  | preventDefault
deriving DecidableEq, Repr

/-- The parsed JSON body of a successful response:
`success` boolean and possibly-absent `message` field. -/
structure RespData where
  success : Bool
  message : Option String
deriving DecidableEq, Repr

/-- Outcome of the asynchronous `fetch(...).then(r => r.json())` chain:
either parsed data, or a rejection (network/transport failure or a
JSON-parse failure), carrying the stringified error. -/
inductive NetOutcome where
  | ok (data : RespData)
  | failed (err : String)
deriving DecidableEq, Repr

/-- A thrown JavaScript exception. -/
inductive JsError where
  | typeError (msg : String)
deriving DecidableEq, Repr

/-- JavaScript string coercion of a possibly-`undefined` value, as in
`'prefix ' + data.message`. -/
def jsToString : Option String → String
  | some s => s
  | none => "undefined"

/-- `showPatientsList`: unconditional navigation. -/
def showPatientsList : List Effect :=
  [Effect.navigate "/doctor/patients"]

/-- `consultPatients`: unconditional navigation. -/
def consultPatients : List Effect :=
  [Effect.navigate "/doctor/notifications"]

/-- `showAppointmentDetails`: logs only. -/
def showAppointmentDetails (appointmentId : String) : List Effect :=
  [Effect.consoleLog ("Show appointment details for: " ++ appointmentId)]

/-- `cancelAppointment(appointmentId)`: confirm; if accepted, POST to
`/cancel_appointment/` ++ id with JSON content type and no body, then
branch on the response. -/
def cancelAppointment (appointmentId : String) (userConfirms : Bool)
    (net : NetOutcome) : List Effect :=
  Effect.confirmPrompt "Are you sure you want to cancel this appointment?" ::
    (if userConfirms then
      Effect.fetchReq
        { url := "/cancel_appointment/" ++ appointmentId
          method := "POST"
          contentType := "application/json"
          body := none } ::
        (match net with
         | NetOutcome.ok data =>
            if data.success then
              [Effect.alert "Appointment cancelled successfully", Effect.reload]
            else
              [Effect.alert ("Error cancelling appointment: " ++ jsToString data.message)]
         | NetOutcome.failed err =>
            [Effect.consoleError ("Error: " ++ err),
             Effect.alert "Error cancelling appointment"])
    else [])

/-- `deleteAppointmentsByDate(event)`: prevent default, read the
`deleteDate` input (absent element: `document.getElementById` yields
`null` and reading `.value` throws a TypeError), validate non-empty,
confirm, POST `date=` ++ value with urlencoded content type, then
branch on the response. -/
def deleteAppointmentsByDate (deleteDateInput : Option String)
    (userConfirms : Bool) (net : NetOutcome) :
    Except JsError (List Effect) :=
  match deleteDateInput with
  | none =>
      Except.error (JsError.typeError "Cannot read properties of null (reading value)")
  | some selectedDate =>
      Except.ok
        (Effect.preventDefault ::
          (if selectedDate = "" then
            [Effect.alert "Please select a date"]
          else
            Effect.confirmPrompt
                ("Are you sure you want to delete all appointments for "
                  ++ selectedDate ++ "?") ::
              (if userConfirms then
                Effect.fetchReq
                  { url := "/delete_appointments_by_date"
                    method := "POST"
                    contentType := "application/x-www-form-urlencoded"
                    body := some ("date=" ++ selectedDate) } ::
                  (match net with
                   | NetOutcome.ok data =>
                      if data.success then
                        [Effect.alert (jsToString data.message), Effect.reload]
                      else
                        [Effect.alert ("Error: " ++ jsToString data.message)]
                   | NetOutcome.failed err =>
                      [Effect.consoleError ("Error: " ++ err),
                       Effect.alert "Error deleting appointments"])
              else [])))

/-- Effects of a non-throwing run; empty list when the run threw. -/
def okEffects : Except JsError (List Effect) → List Effect
  | Except.ok effs => effs
  | Except.error _ => []

/-- The alert messages shown, in order. -/
def alertTexts (effs : List Effect) : List String :=
  effs.filterMap fun e =>
    match e with
    | Effect.alert m => some m
    | _ => none

/-- The confirmation prompts shown, in order. -/
def confirmTexts (effs : List Effect) : List String :=
  effs.filterMap fun e =>
    match e with
    | Effect.confirmPrompt m => some m
    | _ => none

/-- The network requests issued, in order. -/
def fetchReqs (effs : List Effect) : List Request :=
  effs.filterMap fun e =>
    match e with
    | Effect.fetchReq r => some r
    | _ => none

/-- How many page reloads were triggered. -/
def reloadCount (effs : List Effect) : Nat :=
  (effs.filter fun e =>
    match e with
    | Effect.reload => true
    | _ => false).length

/-- How many diagnostic (console.error) log entries were produced. -/
def consoleErrorCount (effs : List Effect) : Nat :=
  (effs.filter fun e =>
    match e with
    | Effect.consoleError _ => true
    | _ => false).length

/-- `sub` occurs as a contiguous substring of `msg`. -/
def containsStr (msg sub : String) : Prop :=
  ∃ l r, msg.data = l ++ sub.data ++ r

/-- Some alert whose text contains `sub` is among the effects. -/
def hasAlertContaining (effs : List Effect) (sub : String) : Prop :=
  ∃ m, Effect.alert m ∈ effs ∧ containsStr m sub

/-- A DOM element at page-ready time: an identity and its class list. -/
structure Elem where
  ident : Nat
  classes : List String
deriving DecidableEq, Repr

/-- A DOM mutation performed by a timer callback. -/
inductive DomAction where
  | addClass (target : Nat) (cls : String)
  | removeElem (target : Nat)
deriving DecidableEq, Repr

/-- Which element a DOM mutation touches. -/
def DomAction.target : DomAction → Nat
  | DomAction.addClass t _ => t
  | DomAction.removeElem t => t

/-- A DOM mutation scheduled at an absolute time (ms after page-ready). -/
structure TimedAction where
  time : Nat
  act : DomAction
deriving DecidableEq, Repr

/-- Whether an element is matched by the selector
`.alert-success, .alert-danger`. -/
def matchesAlertSelector (e : Elem) : Bool :=
  e.classes.contains "alert-success" || e.classes.contains "alert-danger"

/-- `autoDismissAlerts`: for each element matching the selector, an
outer 1500 ms timer adds the `alert-fade-out` class, and a nested
500 ms timer (absolute time 1500 + 500) removes the element. -/
def autoDismissAlerts (page : List Elem) : List TimedAction :=
  (page.filter matchesAlertSelector).flatMap fun e =>
    [⟨1500, DomAction.addClass e.ident "alert-fade-out"⟩,
     ⟨1500 + 500, DomAction.removeElem e.ident⟩]

/-- `true` iff the run ended normally rather than in a thrown exception. -/
def runsWithoutThrow : Except JsError (List Effect) → Bool
  | Except.ok _ => true
  | Except.error _ => false

/-- C1: for every appointment identifier, if the confirmation is accepted
and the server responds with success true (any message field), the only
alert shown is the success notification, and the page reload is
triggered exactly once; in particular no error alert is shown. -/
theorem cancel_confirmed_success_reloads_once (appointmentId : String)
    (msg : Option String) :
    alertTexts (cancelAppointment appointmentId true (NetOutcome.ok ⟨true, msg⟩))
        = ["Appointment cancelled successfully"] ∧
      reloadCount (cancelAppointment appointmentId true (NetOutcome.ok ⟨true, msg⟩)) = 1 :=
  ⟨rfl, rfl⟩

/-- C3: for every confirmation answer and every network outcome, when the
`deleteDate` input is present but empty, `deleteAppointmentsByDate` shows
exactly the validation alert, presents no confirmation prompt, and
issues zero network requests. -/
theorem delete_empty_date_validates_no_request (userConfirms : Bool)
    (net : NetOutcome) :
    deleteAppointmentsByDate (some "") userConfirms net
        = Except.ok [Effect.preventDefault, Effect.alert "Please select a date"] ∧
      alertTexts (okEffects (deleteAppointmentsByDate (some "") userConfirms net))
        = ["Please select a date"] ∧
      confirmTexts (okEffects (deleteAppointmentsByDate (some "") userConfirms net)) = [] ∧
      fetchReqs (okEffects (deleteAppointmentsByDate (some "") userConfirms net)) = [] :=
  ⟨rfl, rfl, rfl, rfl⟩

/-- C5: for every appointment identifier and every network outcome, if the
confirmation is declined, `cancelAppointment` performs only the prompt
itself: zero network requests, no alert, no reload. -/
theorem cancel_declined_no_side_effect (appointmentId : String)
    (net : NetOutcome) :
    cancelAppointment appointmentId false net
        = [Effect.confirmPrompt "Are you sure you want to cancel this appointment?"] ∧
      fetchReqs (cancelAppointment appointmentId false net) = [] ∧
      alertTexts (cancelAppointment appointmentId false net) = [] ∧
      reloadCount (cancelAppointment appointmentId false net) = 0 :=
  ⟨rfl, rfl, rfl, rfl⟩

/-- C7: with `deleteDate` holding "2024-01-01" and the confirmation
accepted, exactly one request is issued: a POST to
/delete_appointments_by_date with urlencoded content type and body
exactly "date=2024-01-01", whatever the response turns out to be. -/
theorem delete_request_exact_shape (net : NetOutcome) :
    fetchReqs (okEffects (deleteAppointmentsByDate (some "2024-01-01") true net))
        = [{ url := "/delete_appointments_by_date"
             method := "POST"
             contentType := "application/x-www-form-urlencoded"
             body := some "date=2024-01-01" }] := by
  cases net with
  | ok data =>
      cases data with
      | mk s m => cases s <;> rfl
  | failed err => rfl

/-- C8: for every appointment identifier, if the confirmation is
accepted, exactly one request is issued: a POST to
/cancel_appointment/ followed by the identifier, with JSON content
type and no body, whatever the response turns out to be. -/
theorem cancel_request_exact_shape (appointmentId : String)
    (net : NetOutcome) :
    fetchReqs (cancelAppointment appointmentId true net)
        = [{ url := "/cancel_appointment/" ++ appointmentId
             method := "POST"
             contentType := "application/json"
             body := none }] := by
  cases net with
  | ok data =>
      cases data with
      | mk s m => cases s <;> rfl
  | failed err => rfl

/-- C4: for every server response with success false and message X, both
the cancel flow and the delete-by-date flow (on a non-empty date, with
confirmation accepted so that the request was in fact issued) show an
alert whose text contains X, and neither triggers a page reload. -/
theorem server_failure_alert_contains_message (appointmentId date x : String)
    (hd : date ≠ "") :
    hasAlertContaining
        (cancelAppointment appointmentId true (NetOutcome.ok ⟨false, some x⟩)) x ∧
      reloadCount
        (cancelAppointment appointmentId true (NetOutcome.ok ⟨false, some x⟩)) = 0 ∧
      hasAlertContaining
        (okEffects (deleteAppointmentsByDate (some date) true (NetOutcome.ok ⟨false, some x⟩))) x ∧
      reloadCount
        (okEffects (deleteAppointmentsByDate (some date) true (NetOutcome.ok ⟨false, some x⟩))) = 0 := by
  refine ⟨⟨"Error cancelling appointment: " ++ x, ?_, ?_⟩, rfl,
    ⟨"Error: " ++ x, ?_, ?_⟩, ?_⟩
  · simp [cancelAppointment, jsToString]
  · exact ⟨"Error cancelling appointment: ".data, [], by
      simp [String.data_append]⟩
  · simp [deleteAppointmentsByDate, okEffects, hd, jsToString]
  · exact ⟨"Error: ".data, [], by simp [String.data_append]⟩
  · simp [deleteAppointmentsByDate, okEffects, reloadCount, hd, jsToString]

/-- C4 witness at appointmentId "7", date "2024-01-01", message "X". -/
theorem server_failure_alert_contains_message_witness :
    ("2024-01-01" : String) ≠ "" ∧
      (hasAlertContaining
          (cancelAppointment "7" true (NetOutcome.ok ⟨false, some "X"⟩)) "X" ∧
        reloadCount
          (cancelAppointment "7" true (NetOutcome.ok ⟨false, some "X"⟩)) = 0 ∧
        hasAlertContaining
          (okEffects (deleteAppointmentsByDate (some "2024-01-01") true (NetOutcome.ok ⟨false, some "X"⟩))) "X" ∧
        reloadCount
          (okEffects (deleteAppointmentsByDate (some "2024-01-01") true (NetOutcome.ok ⟨false, some "X"⟩))) = 0) :=
  ⟨by decide, server_failure_alert_contains_message "7" "2024-01-01" "X" (by decide)⟩

/-- C6: for every network/parse failure in either flow (request issued:
confirmation accepted, date non-empty), exactly one diagnostic
console.error entry is produced, exactly one alert is shown and it is
the generic error alert, and the failure is not propagated: the
delete flow still returns normally. -/
theorem network_failure_one_log_one_generic_alert (appointmentId date err : String)
    (hd : date ≠ "") :
    consoleErrorCount (cancelAppointment appointmentId true (NetOutcome.failed err)) = 1 ∧
      alertTexts (cancelAppointment appointmentId true (NetOutcome.failed err))
        = ["Error cancelling appointment"] ∧
      consoleErrorCount
        (okEffects (deleteAppointmentsByDate (some date) true (NetOutcome.failed err))) = 1 ∧
      alertTexts
        (okEffects (deleteAppointmentsByDate (some date) true (NetOutcome.failed err)))
        = ["Error deleting appointments"] ∧
      runsWithoutThrow (deleteAppointmentsByDate (some date) true (NetOutcome.failed err)) = true := by
  refine ⟨rfl, rfl, ?_, ?_, ?_⟩ <;>
    simp [deleteAppointmentsByDate, okEffects, runsWithoutThrow, hd,
      consoleErrorCount, alertTexts]

/-- C6 witness at appointmentId "7", date "2024-01-01", a fetch rejection. -/
theorem network_failure_one_log_one_generic_alert_witness :
    ("2024-01-01" : String) ≠ "" ∧
      (consoleErrorCount (cancelAppointment "7" true (NetOutcome.failed "Failed to fetch")) = 1 ∧
        alertTexts (cancelAppointment "7" true (NetOutcome.failed "Failed to fetch"))
          = ["Error cancelling appointment"] ∧
        consoleErrorCount
          (okEffects (deleteAppointmentsByDate (some "2024-01-01") true (NetOutcome.failed "Failed to fetch"))) = 1 ∧
        alertTexts
          (okEffects (deleteAppointmentsByDate (some "2024-01-01") true (NetOutcome.failed "Failed to fetch")))
          = ["Error deleting appointments"] ∧
        runsWithoutThrow (deleteAppointmentsByDate (some "2024-01-01") true (NetOutcome.failed "Failed to fetch")) = true) :=
  ⟨by decide, network_failure_one_log_one_generic_alert "7" "2024-01-01" "Failed to fetch" (by decide)⟩

/-- C2 counterexample: on a page state with no element of id
`deleteDate`, `document.getElementById` yields null and reading
`.value` throws a TypeError, so `deleteAppointmentsByDate` does throw
uncaught at a concrete input, refuting the claim as stated over every
page state. -/
theorem delete_missing_input_throws :
    deleteAppointmentsByDate none true (NetOutcome.ok ⟨true, none⟩)
      = Except.error (JsError.typeError "Cannot read properties of null (reading value)") :=
  rfl

/-- C2 amended: whenever the `deleteDate` input exists (the DOM contract
of the host page), no invocation throws: `deleteAppointmentsByDate`
returns normally for every value, confirmation answer and network
outcome, and in both fetch flows a network failure is converted to a
user-visible generic error alert. -/
theorem module_total_when_dom_contract_holds
    (appointmentId v err : String) (c : Bool) (net : NetOutcome) :
    runsWithoutThrow (deleteAppointmentsByDate (some v) c net) = true ∧
      Effect.alert "Error cancelling appointment"
          ∈ cancelAppointment appointmentId true (NetOutcome.failed err) ∧
      (v ≠ "" →
        Effect.alert "Error deleting appointments"
            ∈ okEffects (deleteAppointmentsByDate (some v) true (NetOutcome.failed err))) := by
  refine ⟨?_, by simp [cancelAppointment], ?_⟩
  · cases hv : decide (v = "") with
    | true =>
        have : v = "" := of_decide_eq_true hv
        subst this
        rfl
    | false =>
        have hne : v ≠ "" := of_decide_eq_false hv
        cases net with
        | ok data =>
            cases data with
            | mk s m =>
                cases s <;> cases c <;>
                  simp [deleteAppointmentsByDate, runsWithoutThrow, hne]
        | failed e =>
            cases c <;> simp [deleteAppointmentsByDate, runsWithoutThrow, hne]
  · intro hne
    simp [deleteAppointmentsByDate, okEffects, hne]

/-- C2 amended witness at concrete inputs, the date hypothesis
discharged at "2024-01-01". -/
theorem module_total_when_dom_contract_holds_witness :
    runsWithoutThrow (deleteAppointmentsByDate (some "2024-01-01") true (NetOutcome.ok ⟨true, none⟩)) = true ∧
      Effect.alert "Error cancelling appointment"
          ∈ cancelAppointment "7" true (NetOutcome.failed "Failed to fetch") ∧
      Effect.alert "Error deleting appointments"
          ∈ okEffects (deleteAppointmentsByDate (some "2024-01-01") true (NetOutcome.failed "Failed to fetch")) := by
  obtain ⟨h1, h2, h3⟩ :=
    module_total_when_dom_contract_holds "7" "2024-01-01" "Failed to fetch" true
      (NetOutcome.ok ⟨true, none⟩)
  exact ⟨h1, h2, h3 (by decide)⟩

/-- C10: no URL encoding is applied anywhere: for every non-empty date
string the delete-by-date request body is the literal concatenation
"date=" ++ s, and for every appointment identifier the cancel request
URL is the literal concatenation "/cancel_appointment/" ++ id. -/
theorem request_strings_literal_concatenation (s appointmentId : String)
    (hs : s ≠ "") (net : NetOutcome) :
    fetchReqs (okEffects (deleteAppointmentsByDate (some s) true net))
        = [{ url := "/delete_appointments_by_date"
             method := "POST"
             contentType := "application/x-www-form-urlencoded"
             body := some ("date=" ++ s) }] ∧
      fetchReqs (cancelAppointment appointmentId true net)
        = [{ url := "/cancel_appointment/" ++ appointmentId
             method := "POST"
             contentType := "application/json"
             body := none }] := by
  constructor
  · cases net with
    | ok data =>
        cases data with
        | mk b m =>
            cases b <;>
              simp [deleteAppointmentsByDate, okEffects, fetchReqs, hs]
    | failed e =>
        simp [deleteAppointmentsByDate, okEffects, fetchReqs, hs]
  · cases net with
    | ok data =>
        cases data with
        | mk b m => cases b <;> rfl
    | failed e => rfl

/-- C10 witness at a date containing both an ampersand and an equals
sign, showing the body stays the literal unencoded concatenation. -/
theorem request_strings_literal_concatenation_witness :
    ("a&b=c" : String) ≠ "" ∧
      (fetchReqs (okEffects (deleteAppointmentsByDate (some "a&b=c") true (NetOutcome.ok ⟨true, none⟩)))
          = [{ url := "/delete_appointments_by_date"
               method := "POST"
               contentType := "application/x-www-form-urlencoded"
               body := some ("date=" ++ "a&b=c") }] ∧
        fetchReqs (cancelAppointment "7" true (NetOutcome.ok ⟨true, none⟩))
          = [{ url := "/cancel_appointment/" ++ "7"
               method := "POST"
               contentType := "application/json"
               body := none }]) :=
  ⟨by decide,
    request_strings_literal_concatenation "a&b=c" "7" (by decide) (NetOutcome.ok ⟨true, none⟩)⟩

/-- C9: every page element matching the selector
.alert-success, .alert-danger has the fade-out class application
scheduled at 1500 ms and its removal scheduled at 1500 + 500 ms, and
every scheduled action targets some matching element and is one of
exactly those two; no element outside the matched classes is touched. -/
theorem auto_dismiss_schedule_exact (page : List Elem) :
    (∀ e ∈ page, matchesAlertSelector e = true →
      (⟨1500, DomAction.addClass e.ident "alert-fade-out"⟩ : TimedAction)
          ∈ autoDismissAlerts page ∧
        (⟨1500 + 500, DomAction.removeElem e.ident⟩ : TimedAction)
          ∈ autoDismissAlerts page) ∧
      (∀ a ∈ autoDismissAlerts page, ∃ e, e ∈ page ∧ matchesAlertSelector e = true ∧
        a.act.target = e.ident ∧
        (a = ⟨1500, DomAction.addClass e.ident "alert-fade-out"⟩ ∨
          a = ⟨1500 + 500, DomAction.removeElem e.ident⟩)) := by
  constructor
  · intro e he hm
    constructor <;>
      · simp only [autoDismissAlerts, List.mem_flatMap, List.mem_filter]
        exact ⟨e, ⟨he, hm⟩, by simp⟩
  · intro a ha
    simp only [autoDismissAlerts, List.mem_flatMap, List.mem_filter] at ha
    obtain ⟨e, ⟨he, hm⟩, hmem⟩ := ha
    simp only [List.mem_cons, List.mem_singleton, List.not_mem_nil, or_false] at hmem
    refine ⟨e, he, hm, ?_, hmem⟩
    cases hmem with
    | inl h => subst h; rfl
    | inr h => subst h; rfl

/-- C9 witness on a concrete page with one matching and one
non-matching element. -/
theorem auto_dismiss_schedule_exact_witness :
    (⟨1, ["alert-success"]⟩ : Elem) ∈ ([⟨1, ["alert-success"]⟩, ⟨2, ["card"]⟩] : List Elem) ∧
      matchesAlertSelector ⟨1, ["alert-success"]⟩ = true ∧
      (⟨1500, DomAction.addClass 1 "alert-fade-out"⟩ : TimedAction)
          ∈ autoDismissAlerts [⟨1, ["alert-success"]⟩, ⟨2, ["card"]⟩] ∧
      (⟨1500 + 500, DomAction.removeElem 1⟩ : TimedAction)
          ∈ autoDismissAlerts [⟨1, ["alert-success"]⟩, ⟨2, ["card"]⟩] := by
  have h :=
    (auto_dismiss_schedule_exact [⟨1, ["alert-success"]⟩, ⟨2, ["card"]⟩]).1
      ⟨1, ["alert-success"]⟩ (by simp) (by decide)
  exact ⟨by simp, by decide, h.1, h.2⟩

end Healcard
